import Mathlib

/-!
# Verification of the content-script detection engine

Shallow embedding of the repository's content script (the phishing
detection and form-blocking engine) together with theorems checking the
natural-language specification against it.

Host string primitives (`includes`, `startsWith`, `toLowerCase`,
`substring`) are modelled over the character list of a `String`; the two
anchored regular expressions of the source are compiled by hand into
deterministic matchers (the patterns are such that greedy matching with
backtracking coincides with the deterministic reading, argued inline).
-/

namespace SecureForms

/-- Strip `p` from the front of `cs`; `none` when `p` is not a prefix. -/
def stripPrefixCs : List Char → List Char → Option (List Char)
  | [], cs => some cs
  | _ :: _, [] => none
  | p :: ps, c :: cs => if c = p then stripPrefixCs ps cs else none

/-- Does `pat` occur as a contiguous run somewhere in `s`? -/
def infixCs (pat : List Char) : List Char → Bool
  | [] => (stripPrefixCs pat []).isSome
  | c :: cs => (stripPrefixCs pat (c :: cs)).isSome || infixCs pat cs

/-- JS `s.includes(pat)`: substring containment on the character sequence. -/
def jsIncludes (s pat : String) : Bool :=
  infixCs pat.data s.data

/-- JS `s.startsWith(pat)`. -/
def jsStartsWith (s pat : String) : Bool :=
  (stripPrefixCs pat.data s.data).isSome

/-- JS `s.toLowerCase()` (modelled per character). -/
def jsToLower (s : String) : String :=
  ⟨s.data.map Char.toLower⟩

/-- JS `s.substring(0, n)`: the first `n` characters. -/
def jsSubstring (s : String) (n : Nat) : String :=
  ⟨s.data.take n⟩

/-- Split the longest leading run of decimal digits off a character list,
returning its length and the remainder. -/
def digitRun : List Char → Nat × List Char
  | [] => (0, [])
  | c :: cs =>
    if c.isDigit then
      let r := digitRun cs
      (r.1 + 1, r.2)
    else (0, c :: cs)

/-- Match the regex fragment `\d{1,3}\.`: since the character after the
matched digits must be a literal dot (not a digit), the only viable
backtracking choice consumes the whole leading digit run, which therefore
must have length 1 to 3 and be followed by `'.'`. -/
def matchOctetDot (cs : List Char) : Option (List Char) :=
  let r := digitRun cs
  if 1 ≤ r.1 ∧ r.1 ≤ 3 then
    match r.2 with
    | '.' :: rest => some rest
    | _ => none
  else none

/-- Match the final unanchored regex fragment `\d{1,3}`: at least one
leading digit suffices (the regex is not anchored at the end). -/
def matchFinalOctet (cs : List Char) : Bool :=
  1 ≤ (digitRun cs).1

/-- Source `SUSPICIOUS_PATTERNS.IP_ADDRESS.test`, the regex
`^https?:\/\/\d{1,3}\.\d{1,3}\.\d{1,3}\.\d{1,3}`.  After `http`, an `'s'`
is consumed exactly when present (the next required character `':'` is
never `'s'`, so the optional quantifier is deterministic here). -/
def testIPAddress (s : String) : Bool :=
  match stripPrefixCs "http".data s.data with
  | none => false
  | some cs =>
    let cs := match cs with
      | 's' :: rest => rest
      | _ => cs
    match stripPrefixCs "://".data cs with
    | none => false
    | some cs =>
      match matchOctetDot cs with
      | none => false
      | some cs =>
        match matchOctetDot cs with
        | none => false
        | some cs =>
          match matchOctetDot cs with
          | none => false
          | some cs => matchFinalOctet cs

/-- Source `SUSPICIOUS_PATTERNS.PUNYCODE.test`, the unanchored regex
pattern `xn--` (plain substring containment). -/
def testPunycode (s : String) : Bool :=
  jsIncludes s "xn--"

/-- Source `SUSPICIOUS_PATTERNS.MAILTO.test`, the regex `/^mailto:/`. -/
def testMailto (s : String) : Bool :=
  jsStartsWith s "mailto:"

/-- Source constant `GOOGLE_DOMAINS`. -/
def GOOGLE_DOMAINS : List String :=
  ["google.com", "docs.google.com", "forms.gle", "googleforms.com"]

/-- Source `isGoogleDomain` (the spec's Destination Verifier
`isLegitimateDomain`).  `new URL(url).hostname` together with the
`try`/`catch` is modelled by a host URL parser `parseHostname` returning
`none` exactly when `new URL` would throw. -/
def isGoogleDomain (parseHostname : String → Option String) (url : String) : Bool :=
  match parseHostname url with
  | none => false
  | some hostname =>
    GOOGLE_DOMAINS.any (fun domain => jsIncludes (jsToLower hostname) domain)

/-- The DOM facts the page-level heuristics read: location href, document
title, body text, the four brand-hinting selector probes, and the `href`
values of the page's anchors in document order. -/
structure PageContext where
  url : String
  title : String
  bodyText : String
  /-- `document.querySelector('[alt*="Google"]') ≠ null` -/
  altGoogle : Bool
  /-- `document.querySelector('[src*="google"]') ≠ null` -/
  srcGoogle : Bool
  /-- `document.querySelector('.google-logo') ≠ null` -/
  googleLogoClass : Bool
  /-- `document.querySelector('[class*="google"]') ≠ null` -/
  classGoogle : Bool
  hrefs : List String
deriving Repr, DecidableEq

/-- Source `looksLikeGoogleForm` (the spec's Brand-Impersonation
Classifier): OR of the six indicators. -/
def looksLikeGoogleForm (ctx : PageContext) : Bool :=
  jsIncludes (jsToLower ctx.title) "google form" ||
  jsIncludes (jsToLower ctx.bodyText) "google form" ||
  ctx.altGoogle || ctx.srcGoogle || ctx.googleLogoClass || ctx.classGoogle

/-- Source `shouldProcessPage` (the spec's Page Relevance Filter);
`hasForm` is `document.querySelector('form') !== null`. -/
def shouldProcessPage (ctx : PageContext) (hasForm : Bool) : Bool :=
  hasForm && (
    jsIncludes (jsToLower ctx.url) "google" ||
    jsIncludes (jsToLower ctx.url) "forms" ||
    jsIncludes (jsToLower ctx.url) "test_pages" ||
    jsIncludes (jsToLower ctx.title) "google form" ||
    ctx.altGoogle)

/-- Result record of `analyzeForm`. -/
structure FormAnalysis where
  formAction : String
  pageUrl : String
  reasons : List String
  isSuspicious : Bool
deriving Repr, DecidableEq

/-- Source `analyzeForm`: the four suspicion rules, evaluated only for a
non-empty action (`if (formAction)`), each appending its reason. -/
def analyzeForm (parseHostname : String → Option String) (ctx : PageContext)
    (formAction : String) : FormAnalysis :=
  let suspiciousReasons : List String :=
    if formAction ≠ "" then
      (if looksLikeGoogleForm ctx && !isGoogleDomain parseHostname formAction then
        ["Form appears to be Google Form but submits to non-Google domain: " ++ formAction]
      else []) ++
      (if testIPAddress formAction then
        ["Form submits to IP address: " ++ formAction]
      else []) ++
      (if testMailto formAction then
        ["Form uses mailto action: " ++ formAction]
      else []) ++
      (if testPunycode formAction then
        ["Form action contains punycode: " ++ formAction]
      else [])
    else []
  { formAction := formAction
    pageUrl := ctx.url
    reasons := suspiciousReasons
    isSuspicious := decide (0 < suspiciousReasons.length) }

/-- A suspicious-link finding (source pushes `{ url, reason }`). -/
structure LinkFinding where
  url : String
  reason : String
deriving Repr, DecidableEq

/-- Per-anchor body of the `links.forEach` loop of source
`analyzeSuspiciousLinks`: each of the three rules may push a finding for
the same anchor. -/
def analyzeLink (parseHostname : String → Option String) (ctx : PageContext)
    (href : String) : List LinkFinding :=
  (if testIPAddress href then [{ url := href, reason := "IP address link" }] else []) ++
  (if testPunycode href then [{ url := href, reason := "Punycode link" }] else []) ++
  (if looksLikeGoogleForm ctx && !isGoogleDomain parseHostname href &&
      !jsStartsWith href "#" && !jsStartsWith href "javascript:" then
    [{ url := href, reason := "Non-Google link on Google-looking form" }]
  else [])

/-- Source `analyzeSuspiciousLinks`: the
`document.querySelectorAll('a[href]')` loop over the page's anchors. -/
def analyzeSuspiciousLinks (parseHostname : String → Option String)
    (ctx : PageContext) : List LinkFinding :=
  ctx.hrefs.flatMap (analyzeLink parseHostname ctx)

/-- A submit-capable control (`button[type="submit"], input[type="submit"]`):
its `disabled` property and its `dataset.originalDisabled` entry (a string
when present, as every dataset value). -/
structure SubmitButton where
  disabled : Bool
  originalDisabled : Option String
deriving Repr, DecidableEq

/-- One `<form>` element together with the per-form expando state the
script keeps on it: the `preventSubmission` submit listener, the
`__sf_hasBanner` flag, whether the banner's override control has been
consumed, and membership in the `processedForms` weak set. -/
structure FormElem where
  action : String
  buttons : List SubmitButton
  submitIntercepted : Bool
  hasBanner : Bool
  ignoreConsumed : Bool
  processed : Bool
deriving Repr, DecidableEq

/-- Source `disableFormSubmission`: sets `button.disabled = true` and THEN
records `button.dataset.originalDisabled = button.disabled`, which at that
point is always `true` (stringified to `"true"`); finally installs the
`preventSubmission` submit listener. -/
def disableFormSubmission (f : FormElem) : FormElem :=
  { f with
    buttons := f.buttons.map (fun b =>
      { b with disabled := true, originalDisabled := some "true" })
    submitIntercepted := true }

/-- Source `enableFormSubmission`: sets
`button.disabled = (button.dataset.originalDisabled === 'true')` and
removes the `preventSubmission` submit listener. -/
def enableFormSubmission (f : FormElem) : FormElem :=
  { f with
    buttons := f.buttons.map (fun b =>
      { b with disabled := decide (b.originalDisabled = some "true") })
    submitIntercepted := false }

/-- Source `createFormWarningBanner`, abstracted over the page's current
banner census: returns early when the form already carries a banner or
`document.querySelector('.sf-warning-banner')` finds one (`0 <
bannerCount`); otherwise marks the form, inserts the banner, and calls
`disableFormSubmission`. -/
def createFormWarningBanner (f : FormElem) (bannerCount : Nat) : FormElem × Nat :=
  if f.hasBanner || decide (0 < bannerCount) then (f, bannerCount)
  else (disableFormSubmission { f with hasBanner := true }, bannerCount + 1)

/-- One entry of the alert record's `suspiciousLinks` array. -/
structure AlertLink where
  url : String
  reason : String
deriving Repr, DecidableEq

/-- The sanitized `PHISHING_ALERT` payload handed to
`chrome.runtime.sendMessage`. -/
structure AlertRecord where
  reason : String
  formAction : String
  pageUrl : String
  suspiciousLinks : List AlertLink
  timestamp : Nat
deriving Repr, DecidableEq

/-- Source `sendAlert`'s construction of `sanitizedData`; `windowHref`
stands for `window.location.href` and `now` for `Date.now()`. -/
def sendAlert (windowHref : String) (now : Nat) (analysis : FormAnalysis)
    (suspiciousLinks : List LinkFinding) : AlertRecord :=
  { reason := jsSubstring (String.intercalate ", " analysis.reasons) 500
    formAction := jsSubstring analysis.formAction 200
    pageUrl := jsSubstring
      (if analysis.pageUrl = "" then windowHref else analysis.pageUrl) 200
    suspiciousLinks := (suspiciousLinks.take 10).map (fun l =>
      { url := jsSubstring l.url 200, reason := jsSubstring l.reason 100 })
    timestamp := now }

/-- Effect of one iteration of the `forms.forEach` loop of
`analyzePageForPhishing` on a single form and the page-global state it
touches. -/
structure StepResult where
  form : FormElem
  bannerCount : Nat
  alerts : List AlertRecord
  found : Bool
deriving Repr, DecidableEq

/-- One iteration of the `forms.forEach` loop of source
`analyzePageForPhishing`: skip processed forms; otherwise analyze, and on
suspicion create the banner, send the alert and mark the form
processed. -/
def processOneForm (parseHostname : String → Option String) (ctx : PageContext)
    (links : List LinkFinding) (now : Nat) (f : FormElem) (bannerCount : Nat) :
    StepResult :=
  if f.processed then ⟨f, bannerCount, [], false⟩
  else if (analyzeForm parseHostname ctx f.action).isSuspicious then
    ⟨{ (createFormWarningBanner f bannerCount).1 with processed := true },
      (createFormWarningBanner f bannerCount).2,
      [sendAlert ctx.url now (analyzeForm parseHostname ctx f.action) links], true⟩
  else ⟨f, bannerCount, [], false⟩

/-- Accumulated effect of the whole `forms.forEach` loop. -/
structure ScanResult where
  forms : List FormElem
  bannerCount : Nat
  alerts : List AlertRecord
  found : Bool
deriving Repr, DecidableEq

/-- The `forms.forEach` loop of source `analyzePageForPhishing`, threading
the banner census left to right. -/
def processForms (parseHostname : String → Option String) (ctx : PageContext)
    (links : List LinkFinding) (now : Nat) :
    List FormElem → Nat → ScanResult
  | [], bannerCount => ⟨[], bannerCount, [], false⟩
  | f :: rest, bannerCount =>
    let s := processOneForm parseHostname ctx links now f bannerCount
    let r := processForms parseHostname ctx links now rest s.bannerCount
    ⟨s.form :: r.forms, r.bannerCount, s.alerts ++ r.alerts, s.found || r.found⟩

/-- The page-session state the content script reads and mutates: the page
context, the forms (with their expando state), the number of
`.sf-warning-banner` elements in the document, and the log of alert
payloads handed to the messaging collaborator. -/
structure Page where
  ctx : PageContext
  forms : List FormElem
  bannerCount : Nat
  alerts : List AlertRecord
deriving Repr, DecidableEq

/-- Source `analyzePageForPhishing`: relevance gate, link scan, the
per-form loop, and the fallback links-only alert when no suspicious form
was found. -/
def analyzePageForPhishing (parseHostname : String → Option String) (now : Nat)
    (p : Page) : Page :=
  if shouldProcessPage p.ctx (!p.forms.isEmpty) = false then p
  else
    let suspiciousLinks := analyzeSuspiciousLinks parseHostname p.ctx
    let r := processForms parseHostname p.ctx suspiciousLinks now p.forms p.bannerCount
    let p1 : Page := { p with
      forms := r.forms
      bannerCount := r.bannerCount
      alerts := p.alerts ++ r.alerts }
    if r.found = false ∧ 0 < suspiciousLinks.length ∧ looksLikeGoogleForm p.ctx = true then
      { p1 with alerts := p1.alerts ++
        [sendAlert p.ctx.url now
          { formAction := ""
            pageUrl := p.ctx.url
            reasons := ["Suspicious links found: " ++
              String.intercalate ", " (suspiciousLinks.map LinkFinding.reason)]
            isSuspicious := true }
          suspiciousLinks] }
    else p1

/-- The `ignoreButton` click handler: only reachable while the banner (and
hence the button) exists and the button is not disabled; calls
`enableFormSubmission` and consumes the override control. -/
def ignoreButtonClick (p : Page) (i : Nat) : Page :=
  match p.forms[i]? with
  | none => p
  | some f =>
    if f.hasBanner && !f.ignoreConsumed then
      let f2 : FormElem := { enableFormSubmission f with ignoreConsumed := true }
      { p with forms := p.forms.set i f2 }
    else p

/-- The `dismissButton` click handler: only reachable while the banner
exists; removes the banner element and clears `__sf_hasBanner`. -/
def dismissButtonClick (p : Page) (i : Nat) : Page :=
  match p.forms[i]? with
  | none => p
  | some f =>
    if f.hasBanner then
      { p with
        forms := p.forms.set i { f with hasBanner := false }
        bannerCount := p.bannerCount - 1 }
    else p

/-- A sequence of analysis passes (initial load plus mutation-observer
re-scans), each with its own `Date.now()` value. -/
def runs (parseHostname : String → Option String) (nows : List Nat) (p : Page) :
    Page :=
  nows.foldl (fun q n => analyzePageForPhishing parseHostname n q) p

/-- A form the `forms.forEach` loop leaves untouched: already processed, or
not suspicious under the current page context. -/
def passiveForm (parseHostname : String → Option String) (ctx : PageContext)
    (f : FormElem) : Prop :=
  f.processed = true ∨ (analyzeForm parseHostname ctx f.action).isSuspicious = false

lemma length_jsSubstring (s : String) (n : Nat) : (jsSubstring s n).length ≤ n := by
  show (s.data.take n).length ≤ n
  simp [List.length_take]

lemma string_length_append (a b : String) : (a ++ b).length = a.length + b.length := by
  cases a with
  | mk da => cases b with
    | mk db =>
      show (da ++ db).length = da.length + db.length
      simp

lemma append_right_ne (a b s : String) (h : a.length ≠ b.length) : a ++ s ≠ b ++ s := by
  intro he
  apply h
  have := congrArg String.length he
  rw [string_length_append, string_length_append] at this
  omega

lemma mem_ite_singleton {α : Type} (a b : α) (c : Prop) [Decidable c] :
    a ∈ (if c then [b] else []) ↔ c ∧ a = b := by
  split <;> simp_all

lemma stripPrefixCs_append (p r : List Char) : stripPrefixCs p (p ++ r) = some r := by
  induction p with
  | nil => rfl
  | cons c cs ih => simp [stripPrefixCs, ih]

lemma processOneForm_passive (parseHostname : String → Option String)
    (ctx : PageContext) (links : List LinkFinding) (now : Nat) (f : FormElem)
    (bc : Nat) (h : passiveForm parseHostname ctx f) :
    processOneForm parseHostname ctx links now f bc = ⟨f, bc, [], false⟩ := by
  rcases h with h | h
  · simp [processOneForm, h]
  · by_cases hp : f.processed = true
    · simp [processOneForm, hp]
    · simp at hp
      simp [processOneForm, hp, h]

lemma processOneForm_bannerCount_le_one (parseHostname : String → Option String)
    (ctx : PageContext) (links : List LinkFinding) (now : Nat) (f : FormElem)
    (bc : Nat) (h : bc ≤ 1) :
    (processOneForm parseHostname ctx links now f bc).bannerCount ≤ 1 := by
  unfold processOneForm
  split
  · exact h
  · split
    · unfold createFormWarningBanner
      split
      · exact h
      · rename_i hguard
        simp at hguard
        simp only [StepResult.mk.injEq]
        omega
    · exact h

lemma processForms_length (parseHostname : String → Option String)
    (ctx : PageContext) (links : List LinkFinding) (now : Nat)
    (fs : List FormElem) (bc : Nat) :
    (processForms parseHostname ctx links now fs bc).forms.length = fs.length := by
  induction fs generalizing bc with
  | nil => rfl
  | cons f rest ih => simp [processForms, ih]

lemma processForms_getElem_processed (parseHostname : String → Option String)
    (ctx : PageContext) (links : List LinkFinding) (now : Nat)
    (fs : List FormElem) (bc i : Nat) (f : FormElem)
    (hf : fs[i]? = some f) (hp : f.processed = true) :
    (processForms parseHostname ctx links now fs bc).forms[i]? = some f := by
  induction fs generalizing bc i with
  | nil => simp at hf
  | cons g rest ih =>
    cases i with
    | zero =>
      simp at hf
      subst hf
      simp [processForms, processOneForm_passive _ _ _ _ _ _ (Or.inl hp)]
    | succ j =>
      simp at hf
      simp [processForms]
      exact ih _ j hf

lemma processForms_of_passive (parseHostname : String → Option String)
    (ctx : PageContext) (links : List LinkFinding) (now : Nat)
    (fs : List FormElem) (bc : Nat)
    (h : ∀ f ∈ fs, passiveForm parseHostname ctx f) :
    processForms parseHostname ctx links now fs bc = ⟨fs, bc, [], false⟩ := by
  induction fs generalizing bc with
  | nil => rfl
  | cons g rest ih =>
    have hg := h g (List.mem_cons_self g rest)
    have hrest : ∀ f ∈ rest, passiveForm parseHostname ctx f :=
      fun f hf => h f (List.mem_cons_of_mem g hf)
    simp [processForms, processOneForm_passive _ _ _ _ _ _ hg, ih _ hrest]

lemma processForms_forms_passive (parseHostname : String → Option String)
    (ctx : PageContext) (links : List LinkFinding) (now : Nat)
    (fs : List FormElem) (bc : Nat) (f : FormElem)
    (hf : f ∈ (processForms parseHostname ctx links now fs bc).forms) :
    passiveForm parseHostname ctx f := by
  induction fs generalizing bc with
  | nil => simp [processForms] at hf
  | cons g rest ih =>
    simp only [processForms, List.mem_cons] at hf
    rcases hf with hf | hf
    · subst hf
      unfold processOneForm
      split
      · rename_i hp
        exact Or.inl hp
      · split
        · exact Or.inl rfl
        · rename_i hs
          right
          simpa using hs
    · exact ih _ hf

lemma processForms_bannerCount_le_one (parseHostname : String → Option String)
    (ctx : PageContext) (links : List LinkFinding) (now : Nat)
    (fs : List FormElem) (bc : Nat) (h : bc ≤ 1) :
    (processForms parseHostname ctx links now fs bc).bannerCount ≤ 1 := by
  induction fs generalizing bc with
  | nil => exact h
  | cons g rest ih =>
    simp only [processForms]
    exact ih _ (processOneForm_bannerCount_le_one parseHostname ctx links now g bc h)

lemma analyzePageForPhishing_ctx (parseHostname : String → Option String)
    (now : Nat) (p : Page) :
    (analyzePageForPhishing parseHostname now p).ctx = p.ctx := by
  unfold analyzePageForPhishing
  split
  · rfl
  · simp only []
    split <;> rfl

lemma analyzePageForPhishing_forms_eq (parseHostname : String → Option String)
    (now : Nat) (p : Page)
    (hsp : ¬ shouldProcessPage p.ctx (!p.forms.isEmpty) = false) :
    (analyzePageForPhishing parseHostname now p).forms =
      (processForms parseHostname p.ctx
        (analyzeSuspiciousLinks parseHostname p.ctx) now p.forms
        p.bannerCount).forms := by
  unfold analyzePageForPhishing
  split
  · exact absurd (by assumption) hsp
  · simp only []
    split <;> rfl

lemma analyzePageForPhishing_not_relevant (parseHostname : String → Option String)
    (now : Nat) (p : Page)
    (h : shouldProcessPage p.ctx (!p.forms.isEmpty) = false) :
    analyzePageForPhishing parseHostname now p = p := by
  simp [analyzePageForPhishing, h]

lemma analyzePageForPhishing_getElem_processed
    (parseHostname : String → Option String) (now : Nat) (p : Page)
    (i : Nat) (f : FormElem) (hf : p.forms[i]? = some f)
    (hp : f.processed = true) :
    (analyzePageForPhishing parseHostname now p).forms[i]? = some f := by
  have hpf := processForms_getElem_processed parseHostname p.ctx
    (analyzeSuspiciousLinks parseHostname p.ctx) now p.forms p.bannerCount i f hf hp
  unfold analyzePageForPhishing
  split
  · exact hf
  · simp only []
    split <;> simpa using hpf

lemma runs_getElem_processed (parseHostname : String → Option String)
    (nows : List Nat) (p : Page) (i : Nat) (f : FormElem)
    (hf : p.forms[i]? = some f) (hp : f.processed = true) :
    (runs parseHostname nows p).forms[i]? = some f := by
  induction nows generalizing p with
  | nil => exact hf
  | cons n ns ih =>
    exact ih (analyzePageForPhishing parseHostname n p)
      (analyzePageForPhishing_getElem_processed parseHostname n p i f hf hp)

lemma analyzePageForPhishing_stable (parseHostname : String → Option String)
    (now : Nat) (p : Page)
    (h : ∀ f ∈ p.forms, passiveForm parseHostname p.ctx f) :
    ∃ t : List AlertRecord,
      (analyzePageForPhishing parseHostname now p).ctx = p.ctx ∧
      (analyzePageForPhishing parseHostname now p).forms = p.forms ∧
      (analyzePageForPhishing parseHostname now p).bannerCount = p.bannerCount ∧
      (analyzePageForPhishing parseHostname now p).alerts = p.alerts ++ t ∧
      t.all (fun a => decide (a.formAction = "")) = true := by
  by_cases hsp : shouldProcessPage p.ctx (!p.forms.isEmpty) = false
  · refine ⟨[], ?_⟩
    simp [analyzePageForPhishing_not_relevant parseHostname now p hsp]
  · have hpf := processForms_of_passive parseHostname p.ctx
      (analyzeSuspiciousLinks parseHostname p.ctx) now p.forms p.bannerCount h
    unfold analyzePageForPhishing
    split
    · exact absurd (by assumption) hsp
    · simp only [hpf]
      split
      · refine ⟨[sendAlert p.ctx.url now
          { formAction := ""
            pageUrl := p.ctx.url
            reasons := ["Suspicious links found: " ++ String.intercalate ", "
              ((analyzeSuspiciousLinks parseHostname p.ctx).map LinkFinding.reason)]
            isSuspicious := true }
          (analyzeSuspiciousLinks parseHostname p.ctx)], ?_⟩
        simp [sendAlert, jsSubstring]
      · exact ⟨[], by simp⟩

lemma runs_stable (parseHostname : String → Option String) (nows : List Nat)
    (p : Page) (h : ∀ f ∈ p.forms, passiveForm parseHostname p.ctx f) :
    ∃ t : List AlertRecord,
      (runs parseHostname nows p).ctx = p.ctx ∧
      (runs parseHostname nows p).forms = p.forms ∧
      (runs parseHostname nows p).bannerCount = p.bannerCount ∧
      (runs parseHostname nows p).alerts = p.alerts ++ t ∧
      t.all (fun a => decide (a.formAction = "")) = true := by
  induction nows generalizing p with
  | nil => exact ⟨[], rfl, rfl, rfl, by simp [runs], rfl⟩
  | cons n ns ih =>
    obtain ⟨t1, hc1, hf1, hb1, ha1, hall1⟩ :=
      analyzePageForPhishing_stable parseHostname n p h
    have h' : ∀ f ∈ (analyzePageForPhishing parseHostname n p).forms,
        passiveForm parseHostname (analyzePageForPhishing parseHostname n p).ctx f := by
      rw [hc1, hf1]; exact h
    obtain ⟨t2, hc2, hf2, hb2, ha2, hall2⟩ :=
      ih (analyzePageForPhishing parseHostname n p) h'
    refine ⟨t1 ++ t2, ?_, ?_, ?_, ?_, ?_⟩
    · rw [show runs parseHostname (n :: ns) p =
        runs parseHostname ns (analyzePageForPhishing parseHostname n p) from rfl,
        hc2, hc1]
    · rw [show runs parseHostname (n :: ns) p =
        runs parseHostname ns (analyzePageForPhishing parseHostname n p) from rfl,
        hf2, hf1]
    · rw [show runs parseHostname (n :: ns) p =
        runs parseHostname ns (analyzePageForPhishing parseHostname n p) from rfl,
        hb2, hb1]
    · rw [show runs parseHostname (n :: ns) p =
        runs parseHostname ns (analyzePageForPhishing parseHostname n p) from rfl,
        ha2, ha1, List.append_assoc]
    · simp [List.all_append, hall1, hall2]

/-- C9: for every form whose resolved action is the empty string,
`analyzeForm` returns an empty reason list and marks the form not
suspicious, for every page context (brand-looking or not) and every URL
parser: all four rules sit under the non-empty-action guard. -/
theorem analyzeForm_empty_action (parseHostname : String → Option String)
    (ctx : PageContext) :
    (analyzeForm parseHostname ctx "").reasons = [] ∧
    (analyzeForm parseHostname ctx "").isSuspicious = false := by
  constructor <;> simp [analyzeForm]

/-- C8: every alert record handed to the external collaborator respects
the size caps — reason at most 500 characters, formAction and pageUrl at
most 200, at most 10 suspicious links each with url at most 200 and
reason at most 100 characters — and carries the integer
epoch-milliseconds clock value as its timestamp. -/
theorem sendAlert_caps (windowHref : String) (now : Nat)
    (analysis : FormAnalysis) (links : List LinkFinding) :
    (sendAlert windowHref now analysis links).reason.length ≤ 500 ∧
    (sendAlert windowHref now analysis links).formAction.length ≤ 200 ∧
    (sendAlert windowHref now analysis links).pageUrl.length ≤ 200 ∧
    (sendAlert windowHref now analysis links).suspiciousLinks.length ≤ 10 ∧
    ((sendAlert windowHref now analysis links).suspiciousLinks.all
      (fun l => decide (l.url.length ≤ 200) && decide (l.reason.length ≤ 100)))
      = true ∧
    (sendAlert windowHref now analysis links).timestamp = now := by
  refine ⟨length_jsSubstring _ _, length_jsSubstring _ _, length_jsSubstring _ _,
    ?_, ?_, rfl⟩
  · show ((links.take 10).map _).length ≤ 10
    simp [List.length_take]
  · rw [List.all_eq_true]
    intro l hl
    simp only [sendAlert, List.mem_map] at hl
    obtain ⟨x, _, rfl⟩ := hl
    simp [length_jsSubstring]

/-- The concrete failing input for C1: a suspicious form with a single
submit control that is enabled (`disabled = false`) before blocking. -/
def overrideBugForm : FormElem :=
  { action := "http://203.0.113.5/submit"
    buttons := [{ disabled := false, originalDisabled := none }]
    submitIntercepted := false
    hasBanner := false
    ignoreConsumed := false
    processed := false }

/-- C1: the override does NOT restore the remembered pre-blocking disabled
state. `disableFormSubmission` writes `dataset.originalDisabled` only
after already setting `disabled = true`, so the recorded value is always
the string `"true"`, and `enableFormSubmission` therefore re-disables
every submit control. The control below is enabled before blocking and is
still disabled after the override (the submit interception is removed as
specified). -/
theorem override_keeps_buttons_disabled_code_bug :
    overrideBugForm.buttons.map SubmitButton.disabled = [false] ∧
    (enableFormSubmission (disableFormSubmission overrideBugForm)).buttons.map
      SubmitButton.disabled = [true] ∧
    (enableFormSubmission (disableFormSubmission overrideBugForm)).submitIntercepted
      = false :=
  ⟨rfl, rfl, rfl⟩

/-- C4: `isGoogleDomain` fails closed — an input on which the URL parser
fails yields `false` (the `try`/`catch` never lets the exception out) —
and on a parseable URL it returns `true` exactly when the lower-cased
parsed hostname contains some entry of the fixed allowlist as a
substring. -/
theorem isGoogleDomain_spec (parseHostname : String → Option String)
    (url : String) :
    (parseHostname url = none → isGoogleDomain parseHostname url = false) ∧
    (∀ hostname, parseHostname url = some hostname →
      (isGoogleDomain parseHostname url = true ↔
        ∃ d ∈ GOOGLE_DOMAINS, jsIncludes (jsToLower hostname) d = true)) := by
  constructor
  · intro h
    simp [isGoogleDomain, h]
  · intro hostname h
    simp [isGoogleDomain, h, List.any_eq_true]

/-- A concrete host URL parser for the C4 witness: fails on one string,
parses every other to a fixed mixed-case hostname. -/
def parseFixed : String → Option String := fun s =>
  if s = "not a url" then none else some "Docs.Google.com.evil.example"

/-- Witness for C4 at a concrete parser and concrete URLs. -/
theorem isGoogleDomain_spec_witness :
    isGoogleDomain parseFixed "not a url" = false ∧
    (isGoogleDomain parseFixed "https://docs.google.com.evil.example/login" = true ↔
      ∃ d ∈ GOOGLE_DOMAINS,
        jsIncludes (jsToLower "Docs.Google.com.evil.example") d = true) :=
  ⟨(isGoogleDomain_spec parseFixed "not a url").1 (by simp [parseFixed]),
   (isGoogleDomain_spec parseFixed "https://docs.google.com.evil.example/login").2
     "Docs.Google.com.evil.example" (by simp [parseFixed])⟩

/-- C3: an anchor whose href is an in-page fragment (starts with `#`) or a
script-pseudo URL (starts with `javascript:`) never receives a finding
from the non-brand-link rule, for every page context (in particular
brand-looking ones), every parser (in particular when the destination
check fails) and every remainder of the href. -/
theorem fragment_and_script_links_unflagged
    (parseHostname : String → Option String) (ctx : PageContext)
    (rest : List Char) (s : String) :
    ((analyzeLink parseHostname ctx ⟨'#' :: rest⟩).all
      (fun fd => decide (fd.reason ≠ "Non-Google link on Google-looking form")))
      = true ∧
    ((analyzeLink parseHostname ctx ("javascript:" ++ s)).all
      (fun fd => decide (fd.reason ≠ "Non-Google link on Google-looking form")))
      = true := by
  have h1 : jsStartsWith ⟨'#' :: rest⟩ "#" = true := by
    show (stripPrefixCs "#".data ('#' :: rest)).isSome = true
    rw [show ('#' :: rest) = "#".data ++ rest from rfl, stripPrefixCs_append]
    rfl
  have h2 : jsStartsWith ("javascript:" ++ s) "javascript:" = true := by
    show (stripPrefixCs "javascript:".data ("javascript:" ++ s).data).isSome = true
    rw [String.data_append, stripPrefixCs_append]
    rfl
  constructor
  · unfold analyzeLink
    rw [h1]
    simp only [Bool.not_true, Bool.and_false, Bool.false_and, Bool.and_self]
    rw [List.all_eq_true]
    intro fd hfd
    simp only [List.mem_append, mem_ite_singleton] at hfd
    rcases hfd with (⟨-, rfl⟩ | ⟨-, rfl⟩) | ⟨hc, -⟩
    · rfl
    · rfl
    · simp at hc
  · unfold analyzeLink
    rw [h2]
    simp only [Bool.not_true, Bool.and_false, Bool.false_and, Bool.and_self]
    rw [List.all_eq_true]
    intro fd hfd
    simp only [List.mem_append, mem_ite_singleton] at hfd
    rcases hfd with (⟨-, rfl⟩ | ⟨-, rfl⟩) | ⟨hc, -⟩
    · rfl
    · rfl
    · simp at hc

/-- C5: `analyzeForm` evaluates its four rules independently and
accumulates every matching rule's reason (for a non-empty action, each
rule's message is in the reason list exactly when that rule's condition
holds, so one form can collect several reasons), and the result is marked
suspicious exactly when the accumulated reason list is non-empty. -/
theorem analyzeForm_accumulates_rules (parseHostname : String → Option String)
    (ctx : PageContext) (a : String) :
    (("Form appears to be Google Form but submits to non-Google domain: " ++ a)
        ∈ (analyzeForm parseHostname ctx a).reasons ↔
      (a ≠ "" ∧ looksLikeGoogleForm ctx = true ∧
        isGoogleDomain parseHostname a = false)) ∧
    (("Form submits to IP address: " ++ a)
        ∈ (analyzeForm parseHostname ctx a).reasons ↔
      (a ≠ "" ∧ testIPAddress a = true)) ∧
    (("Form uses mailto action: " ++ a)
        ∈ (analyzeForm parseHostname ctx a).reasons ↔
      (a ≠ "" ∧ testMailto a = true)) ∧
    (("Form action contains punycode: " ++ a)
        ∈ (analyzeForm parseHostname ctx a).reasons ↔
      (a ≠ "" ∧ testPunycode a = true)) ∧
    ((analyzeForm parseHostname ctx a).isSuspicious = true ↔
      (analyzeForm parseHostname ctx a).reasons ≠ []) := by
  have n12 := append_right_ne
    "Form appears to be Google Form but submits to non-Google domain: "
    "Form submits to IP address: " a (by decide)
  have n13 := append_right_ne
    "Form appears to be Google Form but submits to non-Google domain: "
    "Form uses mailto action: " a (by decide)
  have n14 := append_right_ne
    "Form appears to be Google Form but submits to non-Google domain: "
    "Form action contains punycode: " a (by decide)
  have n23 := append_right_ne "Form submits to IP address: "
    "Form uses mailto action: " a (by decide)
  have n24 := append_right_ne "Form submits to IP address: "
    "Form action contains punycode: " a (by decide)
  have n34 := append_right_ne "Form uses mailto action: "
    "Form action contains punycode: " a (by decide)
  have n21 := n12.symm
  have n31 := n13.symm
  have n41 := n14.symm
  have n32 := n23.symm
  have n42 := n24.symm
  have n43 := n34.symm
  refine ⟨?_, ?_, ?_, ?_, ?_⟩
  · by_cases ha : a = ""
    · subst ha
      simp [analyzeForm]
    · simp [analyzeForm, ha, List.mem_append, mem_ite_singleton,
        n12, n13, n14, Bool.and_eq_true, Bool.not_eq_true']
  · by_cases ha : a = ""
    · subst ha
      simp [analyzeForm]
    · simp [analyzeForm, ha, List.mem_append, mem_ite_singleton,
        n21, n23, n24, Bool.and_eq_true, Bool.not_eq_true']
  · by_cases ha : a = ""
    · subst ha
      simp [analyzeForm]
    · simp [analyzeForm, ha, List.mem_append, mem_ite_singleton,
        n31, n32, n34, Bool.and_eq_true, Bool.not_eq_true']
  · by_cases ha : a = ""
    · subst ha
      simp [analyzeForm]
    · simp [analyzeForm, ha, List.mem_append, mem_ite_singleton,
        n41, n42, n43, Bool.and_eq_true, Bool.not_eq_true']
  · have hsus : (analyzeForm parseHostname ctx a).isSuspicious
        = decide (0 < (analyzeForm parseHostname ctx a).reasons.length) := rfl
    rw [hsus, decide_eq_true_eq]
    exact List.length_pos

/-- A URL parser that fails on every input (every destination fails the
Destination Verifier). -/
def parseNoneAll : String → Option String := fun _ => none

/-- A suspicious IP-action form with one enabled submit control. -/
def ipForm : FormElem :=
  { action := "http://1.2.3.4/a"
    buttons := [{ disabled := false, originalDisabled := none }]
    submitIntercepted := false
    hasBanner := false
    ignoreConsumed := false
    processed := false }

/-- A relevance-passing, non-brand-looking page context. -/
def plainCtx : PageContext :=
  { url := "http://evil.test/forms/page", title := "Login", bodyText := ""
    altGoogle := false, srcGoogle := false, googleLogoClass := false
    classGoogle := false, hrefs := [] }

/-- A page carrying two suspicious forms. -/
def twoFormPage : Page :=
  { ctx := plainCtx, forms := [ipForm, ipForm], bannerCount := 0, alerts := [] }

/-- C2 counterexample: on a page with two suspicious forms, the second
form is flagged while the first form's banner is showing — exactly one
banner exists and the second form gets its own alert and processed mark —
but, contrary to the claim, its submission is NOT blocked: the submit
control stays enabled and no submit interception is installed. -/
theorem second_form_not_blocked_counterexample :
    (analyzePageForPhishing parseNoneAll 0 twoFormPage).bannerCount = 1 ∧
    (analyzePageForPhishing parseNoneAll 0 twoFormPage).alerts.length = 2 ∧
    ((analyzePageForPhishing parseNoneAll 0 twoFormPage).forms[1]?).map
      FormElem.submitIntercepted = some false ∧
    ((analyzePageForPhishing parseNoneAll 0 twoFormPage).forms[1]?).map
      (fun f => f.buttons.map SubmitButton.disabled) = some [false] ∧
    ((analyzePageForPhishing parseNoneAll 0 twoFormPage).forms[1]?).map
      FormElem.processed = some true :=
  ⟨rfl, rfl, rfl, rfl, rfl⟩

/-- C2 amended: at most one warning banner exists per page (an analysis
pass preserves the at-most-one-banner invariant), and a second suspicious
form detected while a banner is showing still triggers its own alert and
is marked processed — but its submission is NOT blocked: the banner-exists
early return skips the submit-control disabling and the submit
interception, leaving the form unchanged apart from the processed mark. -/
theorem singleton_banner_amended :
    (∀ (parseHostname : String → Option String) (now : Nat) (p : Page),
      p.bannerCount ≤ 1 →
      (analyzePageForPhishing parseHostname now p).bannerCount ≤ 1) ∧
    (∀ (parseHostname : String → Option String) (ctx : PageContext)
        (links : List LinkFinding) (now : Nat) (f : FormElem) (bc : Nat),
      f.processed = false →
      (analyzeForm parseHostname ctx f.action).isSuspicious = true →
      0 < bc →
      processOneForm parseHostname ctx links now f bc =
        ⟨{ f with processed := true }, bc,
          [sendAlert ctx.url now (analyzeForm parseHostname ctx f.action) links],
          true⟩) := by
  constructor
  · intro parseHostname now p h
    unfold analyzePageForPhishing
    split
    · exact h
    · simp only []
      split <;>
        simpa using processForms_bannerCount_le_one parseHostname p.ctx
          (analyzeSuspiciousLinks parseHostname p.ctx) now p.forms p.bannerCount h
  · intro parseHostname ctx links now f bc hp hs hbc
    simp [processOneForm, createFormWarningBanner, hp, hs, hbc]

/-- Witness for the amended C2 at concrete inputs. -/
theorem singleton_banner_amended_witness :
    (analyzePageForPhishing parseNoneAll 3 twoFormPage).bannerCount ≤ 1 ∧
    processOneForm parseNoneAll plainCtx [] 3 ipForm 1 =
      ⟨{ ipForm with processed := true }, 1,
        [sendAlert plainCtx.url 3 (analyzeForm parseNoneAll plainCtx ipForm.action) []],
        true⟩ :=
  ⟨singleton_banner_amended.1 parseNoneAll 3 twoFormPage (by decide),
   singleton_banner_amended.2 parseNoneAll plainCtx [] 3 ipForm 1 rfl rfl
     (by decide)⟩

/-- A suspicious mailto-action form with one enabled submit control. -/
def mailtoForm : FormElem :=
  { action := "mailto:pay@evil.test"
    buttons := [{ disabled := false, originalDisabled := none }]
    submitIntercepted := false
    hasBanner := false
    ignoreConsumed := false
    processed := false }

/-- A relevance-passing context for the mailto page. -/
def mailtoCtx : PageContext :=
  { url := "http://site.test/google-login", title := "Pay", bodyText := ""
    altGoogle := false, srcGoogle := false, googleLogoClass := false
    classGoogle := false, hrefs := [] }

/-- A page carrying two suspicious mailto forms. -/
def mailtoPage : Page :=
  { ctx := mailtoCtx, forms := [mailtoForm, mailtoForm], bannerCount := 0
    alerts := [] }

/-- C6 counterexample: both forms of this page are flagged suspicious, yet
after two full pipeline runs the second form has never been blocked — no
banner, no submit interception, submit control still enabled — so for it
the blocking transition happened zero times, not exactly once (while its
alert and processed mark did happen exactly once). -/
theorem second_form_never_blocked_counterexample :
    (analyzeForm parseNoneAll mailtoCtx mailtoForm.action).isSuspicious = true ∧
    ((runs parseNoneAll [0, 1] mailtoPage).forms[1]?).map
      FormElem.submitIntercepted = some false ∧
    ((runs parseNoneAll [0, 1] mailtoPage).forms[1]?).map
      FormElem.hasBanner = some false ∧
    ((runs parseNoneAll [0, 1] mailtoPage).forms[1]?).map
      (fun f => f.buttons.map SubmitButton.disabled) = some [false] ∧
    ((runs parseNoneAll [0, 1] mailtoPage).forms[1]?).map
      FormElem.processed = some true ∧
    (runs parseNoneAll [0, 1] mailtoPage).alerts.length = 2 :=
  ⟨rfl, rfl, rfl, rfl, rfl, rfl⟩

/-- C6 amended: per-form processing is at-most-once. After one pipeline
pass, any number of further passes leaves every form and the banner
census unchanged and emits no per-form alert (anything a later pass
appends is the links-only fallback record, whose formAction is empty);
and a suspicious unprocessed form encountered while no banner is showing
is blocked exactly then — banner created, submit controls disabled,
interception installed, processed mark set, one alert emitted. For a
suspicious form encountered while a banner is already showing, banner
creation and blocking happen zero times (only alert and processed
mark). -/
theorem at_most_once_processing_amended :
    (∀ (parseHostname : String → Option String) (now : Nat) (nows : List Nat)
        (p : Page),
      (runs parseHostname nows (analyzePageForPhishing parseHostname now p)).forms
        = (analyzePageForPhishing parseHostname now p).forms ∧
      (runs parseHostname nows (analyzePageForPhishing parseHostname now p)).bannerCount
        = (analyzePageForPhishing parseHostname now p).bannerCount ∧
      ((runs parseHostname nows (analyzePageForPhishing parseHostname now p)).alerts.drop
          (analyzePageForPhishing parseHostname now p).alerts.length).all
        (fun a => decide (a.formAction = "")) = true) ∧
    (∀ (parseHostname : String → Option String) (ctx : PageContext)
        (links : List LinkFinding) (now : Nat) (f : FormElem),
      f.processed = false → f.hasBanner = false →
      (analyzeForm parseHostname ctx f.action).isSuspicious = true →
      processOneForm parseHostname ctx links now f 0 =
        ⟨{ disableFormSubmission { f with hasBanner := true } with
            processed := true }, 1,
          [sendAlert ctx.url now (analyzeForm parseHostname ctx f.action) links],
          true⟩) := by
  constructor
  · intro parseHostname now nows p
    by_cases hsp : shouldProcessPage p.ctx (!p.forms.isEmpty) = false
    · rw [analyzePageForPhishing_not_relevant parseHostname now p hsp]
      have hruns : runs parseHostname nows p = p := by
        induction nows with
        | nil => rfl
        | cons n ns ih =>
          show runs parseHostname ns (analyzePageForPhishing parseHostname n p) = p
          rw [analyzePageForPhishing_not_relevant parseHostname n p hsp]
          exact ih
      rw [hruns]
      exact ⟨rfl, rfl, by simp⟩
    · have hpass : ∀ f ∈ (analyzePageForPhishing parseHostname now p).forms,
          passiveForm parseHostname
            (analyzePageForPhishing parseHostname now p).ctx f := by
        rw [analyzePageForPhishing_ctx,
          analyzePageForPhishing_forms_eq parseHostname now p hsp]
        intro f hf
        exact processForms_forms_passive parseHostname p.ctx
          (analyzeSuspiciousLinks parseHostname p.ctx) now p.forms p.bannerCount f hf
      obtain ⟨t, -, hfo, hb, ha, hall⟩ :=
        runs_stable parseHostname nows (analyzePageForPhishing parseHostname now p) hpass
      refine ⟨hfo, hb, ?_⟩
      rw [ha, List.drop_left]
      exact hall
  · intro parseHostname ctx links now f hp hb hs
    simp [processOneForm, createFormWarningBanner, hp, hb, hs]

/-- Witness for the amended C6 at concrete inputs. -/
theorem at_most_once_processing_amended_witness :
    (runs parseNoneAll [7] (analyzePageForPhishing parseNoneAll 5 mailtoPage)).forms
      = (analyzePageForPhishing parseNoneAll 5 mailtoPage).forms ∧
    processOneForm parseNoneAll mailtoCtx [] 5 mailtoForm 0 =
      ⟨{ disableFormSubmission { mailtoForm with hasBanner := true } with
          processed := true }, 1,
        [sendAlert mailtoCtx.url 5 (analyzeForm parseNoneAll mailtoCtx mailtoForm.action) []],
        true⟩ :=
  ⟨(at_most_once_processing_amended.1 parseNoneAll 5 [7] mailtoPage).1,
   at_most_once_processing_amended.2 parseNoneAll mailtoCtx [] 5 mailtoForm
     rfl rfl rfl⟩

/-- C7: override is one-way. A processed form (in particular one in the
OVERRIDDEN state) is skipped by every later analysis pass, so no sequence
of re-scans changes it in any way — in particular none re-disables its
submit controls or re-installs the submit interception — and once the
override control is consumed, invoking it again is a no-op. -/
theorem override_one_way (parseHostname : String → Option String) (p : Page)
    (i : Nat) (f : FormElem) (hf : p.forms[i]? = some f)
    (hp : f.processed = true) (hc : f.ignoreConsumed = true) :
    (∀ nows, (runs parseHostname nows p).forms[i]? = some f) ∧
    ignoreButtonClick p i = p := by
  constructor
  · intro nows
    exact runs_getElem_processed parseHostname nows p i f hf hp
  · simp [ignoreButtonClick, hf, hc]

/-- A form in the OVERRIDDEN state (processed, override consumed, submit
interception removed). -/
def overriddenForm : FormElem :=
  { action := "http://1.2.3.4/a"
    buttons := [{ disabled := true, originalDisabled := some "true" }]
    submitIntercepted := false
    hasBanner := true
    ignoreConsumed := true
    processed := true }

/-- A page whose only form has been overridden. -/
def overriddenPage : Page :=
  { ctx := plainCtx, forms := [overriddenForm], bannerCount := 1, alerts := [] }

/-- Witness for C7 at a concrete overridden page and two re-scans. -/
theorem override_one_way_witness :
    (runs parseNoneAll [0, 1] overriddenPage).forms[0]? = some overriddenForm ∧
    ignoreButtonClick overriddenPage 0 = overriddenPage :=
  ⟨(override_one_way parseNoneAll overriddenPage 0 overriddenForm rfl rfl rfl).1
      [0, 1],
   (override_one_way parseNoneAll overriddenPage 0 overriddenForm rfl rfl rfl).2⟩

/-- C10: dismissing the warning banner removes the banner (census
decremented, banner flag cleared) but does not change the form's blocking
state — its submit controls, submit interception and processed mark are
untouched — and because the form stays processed, no later re-scan
changes it (in particular none recreates a banner or an override
affordance for it). -/
theorem dismiss_preserves_blocking (parseHostname : String → Option String)
    (p : Page) (i : Nat) (f : FormElem) (hf : p.forms[i]? = some f)
    (hb : f.hasBanner = true) (hp : f.processed = true) :
    (dismissButtonClick p i).forms[i]? = some { f with hasBanner := false } ∧
    (dismissButtonClick p i).bannerCount = p.bannerCount - 1 ∧
    ({ f with hasBanner := false } : FormElem).buttons = f.buttons ∧
    ({ f with hasBanner := false } : FormElem).submitIntercepted
      = f.submitIntercepted ∧
    ({ f with hasBanner := false } : FormElem).processed = f.processed ∧
    (∀ nows, (runs parseHostname nows (dismissButtonClick p i)).forms[i]?
      = some { f with hasBanner := false }) := by
  obtain ⟨hlt, -⟩ := List.getElem?_eq_some.mp hf
  have h1 : (dismissButtonClick p i).forms[i]?
      = some { f with hasBanner := false } := by
    simp only [dismissButtonClick, hf, hb, if_true]
    exact List.getElem?_set_eq_of_lt _ hlt
  refine ⟨h1, ?_, rfl, rfl, rfl, ?_⟩
  · simp [dismissButtonClick, hf, hb]
  · intro nows
    exact runs_getElem_processed parseHostname nows (dismissButtonClick p i) i
      { f with hasBanner := false } h1 (by simpa using hp)

/-- A BLOCKED form (processed, blocked controls, interception installed,
banner showing). -/
def blockedForm : FormElem :=
  { action := "http://1.2.3.4/a"
    buttons := [{ disabled := true, originalDisabled := some "true" }]
    submitIntercepted := true
    hasBanner := true
    ignoreConsumed := false
    processed := true }

/-- A page whose only form is BLOCKED with its banner showing. -/
def blockedPage : Page :=
  { ctx := plainCtx, forms := [blockedForm], bannerCount := 1, alerts := [] }

/-- Witness for C10 at a concrete blocked page and two re-scans. -/
theorem dismiss_preserves_blocking_witness :
    (dismissButtonClick blockedPage 0).forms[0]?
      = some { blockedForm with hasBanner := false } ∧
    (runs parseNoneAll [2, 3] (dismissButtonClick blockedPage 0)).forms[0]?
      = some { blockedForm with hasBanner := false } :=
  ⟨(dismiss_preserves_blocking parseNoneAll blockedPage 0 blockedForm rfl rfl rfl).1,
   (dismiss_preserves_blocking parseNoneAll blockedPage 0 blockedForm
      rfl rfl rfl).2.2.2.2.2 [2, 3]⟩

end SecureForms
